import Mathlib

/-!
# Verification of the wind-down orchestration engine (scripts/wind_down.py)

Shallow embedding of the session-finalization orchestrator: the re-entrancy
guard decision in `main`, the four fact collectors (`get_session_state`,
`run_sanity_check`, `scan_pending_work`, `get_uncommitted_changes`), the
decision pipeline `get_wind_down_data`, the handoff writer
`create_session_file`, and the extension hook `call_extension_hook`.

External effects (filesystem reads, subprocess runs, dynamic module loading)
are modelled as explicit environment values describing their outcome; the
program logic that consumes those outcomes is translated directly from the
Python source. Python exceptions that the source fails to catch are modelled
with the `Outcome` type: `Outcome.raised` marks an execution on which the
Python program would propagate an uncaught exception.
-/

namespace WindDown

/-- Result of a Python expression that may raise an uncaught exception. -/
inductive Outcome (α : Type) where
  | ok (val : α)
  | raised
deriving DecidableEq, Repr

/-- Outcome of `json.load` on a file, as seen by `load_json_file`
(wind_down.py lines 164-172):
* `missing`  — `path.exists()` is false;
* `unreadable` — opening or reading raises `IOError` (caught);
* `malformed` — the text is not valid JSON, `json.JSONDecodeError` (caught);
* `undecodable` — the bytes are not valid UTF-8: `fp.read()` inside
  `json.load` raises `UnicodeDecodeError`, which is neither
  `json.JSONDecodeError` nor `IOError`, so the `except` clause at line 171
  does NOT catch it;
* `ok v` — the parse succeeded with value `v`. -/
inductive LoadOutcome (α : Type) where
  | missing
  | unreadable
  | malformed
  | undecodable
  | ok (v : α)
deriving DecidableEq, Repr

/-- `load_json_file` (lines 164-172): missing file or a caught exception
returns the supplied default; an undecodable file raises past the handler. -/
def load_json_file {α : Type} (o : LoadOutcome α) (deflt : α) : Outcome α :=
  match o with
  | .missing => .ok deflt
  | .unreadable => .ok deflt
  | .malformed => .ok deflt
  | .undecodable => .raised
  | .ok v => .ok v

/-- Is `pat` a prefix of `l`? (character-list version of `str.startswith`). -/
def listIsPre : List Char → List Char → Bool
  | [], _ => true
  | _ :: _, [] => false
  | a :: as, b :: bs => a == b && listIsPre as bs

/-- Number of non-overlapping occurrences of `pat` in the scanned list,
scanning left to right — the semantics of Python `str.count` for a
non-empty pattern. After a match the scan resumes past the matched
segment. The `fuel` argument makes the recursion structural; each step
consumes at least one scanned character, so `fuel = length` never runs
out. (Python defines `s.count("")` as `len(s) + 1`; every pattern the
program counts is a non-empty literal, and this function returns 0 there
instead.) -/
def pyCountAux (pat : List Char) : Nat → List Char → Nat
  | 0, _ => 0
  | _, [] => 0
  | fuel + 1, c :: cs =>
    if listIsPre pat (c :: cs) && !pat.isEmpty then
      1 + pyCountAux pat fuel (cs.drop (pat.length - 1))
    else
      pyCountAux pat fuel cs

/-- Non-overlapping occurrence count of `pat` in `l` (Python `count`). -/
def pyCount (pat l : List Char) : Nat :=
  pyCountAux pat l.length l

/-- `s.count(pat)` for strings. -/
def strCount (s pat : String) : Nat :=
  pyCount pat.toList s.toList

/-- `pat in s` (Python substring containment) for a non-empty pattern. -/
def containsSub (s pat : String) : Bool :=
  decide (0 < strCount s pat)

/-- `s.startswith(pat)`. -/
def strStarts (s pat : String) : Bool :=
  listIsPre pat.toList s.toList

/-- `s.endswith(pat)`. -/
def strEnds (s pat : String) : Bool :=
  listIsPre pat.toList.reverse s.toList.reverse

/-- `s.upper()` (ASCII range, which covers the scanned markers). -/
def strUpper (s : String) : String :=
  String.mk (s.toList.map Char.toUpper)

/-- `s.lower()` (ASCII range). -/
def strLower (s : String) : String :=
  String.mk (s.toList.map Char.toLower)

/-- The whitespace set of Python `str.strip()`. -/
def isPySpace (c : Char) : Bool :=
  c == ' ' || c == '\t' || c == '\n' || c == '\r' ||
  c.toNat == 11 || c.toNat == 12

/-- `s.strip()`. -/
def pyStrip (s : String) : String :=
  String.mk (((s.toList.dropWhile isPySpace).reverse.dropWhile isPySpace).reverse)

/-- Split a character list at every occurrence of `sep`
(Python `str.split(sep)` for a one-character separator). -/
def splitChar (sep : Char) : List Char → List (List Char)
  | [] => [[]]
  | c :: cs =>
    if c == sep then [] :: splitChar sep cs
    else
      match splitChar sep cs with
      | [] => [[c]]
      | h :: t => (c :: h) :: t

/-- `s.split(chr)` for strings. -/
def pySplitOn (s : String) (sep : Char) : List String :=
  (splitChar sep s.toList).map String.mk

/-- The structured health report the external sanity-check tool may print:
the shape `data.get(...)` reads at lines 209-215, `{status, summary:
{passed, total, warnings, errors}}`, each field optional (the source
substitutes a default for a missing field). JSON numerics are modelled as
integers; nothing in the source constrains their sign. -/
structure StructuredSummary where
  status : Option String
  passed : Option Int
  total : Option Int
  warnings : Option Int
  errors : Option Int
deriving DecidableEq, Repr

/-- SanityReport: the dict shape every path of `run_sanity_check` and the
skip path of `get_wind_down_data` produce. -/
structure SanityReport where
  status : String
  checks_passed : Int
  checks_total : Int
  warnings : Int
  errors : Int
  message : String
deriving DecidableEq, Repr

/-- Outcome of the external sanity-check invocation (lines 177-231):
* `noScript` — none of the three candidate script locations exists;
* `execFailure msg` — `subprocess.run` raised (`TimeoutExpired` or any
  other exception inside the `try`, including an `AttributeError` when the
  captured stdout parses as non-dict JSON), all caught at line 231;
* `ran stdout parsed` — the subprocess completed; `parsed` is the result of
  `json.loads(stdout)` when stdout parses as a JSON object
  (`none` models `json.JSONDecodeError`). When `stdout` is empty the source
  never attempts the parse, so `parsed` is ignored there. -/
inductive SanityEnv where
  | noScript
  | execFailure (msg : String)
  | ran (stdout : String) (parsed : Option StructuredSummary)
deriving DecidableEq, Repr

/-- Textual fallback of `run_sanity_check` (lines 220-230): count success
and failure markers in the captured output. -/
def textFallbackReport (stdout : String) : SanityReport :=
  let passed : Nat := strCount stdout "[+]" + strCount stdout "PASS"
  let failed : Nat := strCount stdout "[-]" + strCount stdout "FAIL"
  { status := if failed = 0 then "healthy" else "warning"
    checks_passed := (passed : Int)
    checks_total := ((passed + failed : Nat) : Int)
    warnings := (failed : Int)
    errors := 0
    message := "Sanity check passed (" ++ toString passed ++ "/" ++
      toString (passed + failed) ++ ")" }

/-- `run_sanity_check` (lines 175-241). The structured-output branch copies
the tool values verbatim, defaulting each missing field to 0 / "unknown". -/
def run_sanity_check : SanityEnv → SanityReport
  | .noScript =>
    { status := "unknown", checks_passed := 0, checks_total := 0
      warnings := 0, errors := 0, message := "No sanity check script found" }
  | .execFailure msg =>
    { status := "error", checks_passed := 0, checks_total := 0
      warnings := 0, errors := 1
      message := "Sanity check failed to execute: " ++ msg }
  | .ran stdout parsed =>
    match (if stdout = "" then none else parsed) with
    | some d =>
      { status := d.status.getD "unknown"
        checks_passed := d.passed.getD 0
        checks_total := d.total.getD 0
        warnings := d.warnings.getD 0
        errors := d.errors.getD 0
        message := "" }
    | none => textFallbackReport stdout

/-- The skip-path placeholder report (lines 376-383). -/
def skippedReport : SanityReport :=
  { status := "skipped", checks_passed := 0, checks_total := 0
    warnings := 0, errors := 0, message := "Sanity check skipped by user" }

/-- The JSON value stored at `current_session.started` in
`session_state.json`:
* `absent` — key missing (or `current_session` itself missing);
* `str s` — a JSON string (Python truthiness: falsy iff empty);
* `nonStr truthy` — any non-string JSON value, carrying its Python
  truthiness (e.g. `123` is truthy, `0`, `null`, `[]` falsy). -/
inductive StartedVal where
  | absent
  | str (s : String)
  | nonStr (truthy : Bool)
deriving DecidableEq, Repr

/-- The part of the `session_state.json` record the pipeline reads. The
default record (the `{}` passed at line 247) maps to `started := .absent`. -/
structure SessionState where
  started : StartedVal
deriving DecidableEq, Repr

/-- `get_session_state` (lines 244-247): `load_json_file(state_file, {})`. -/
def get_session_state (o : LoadOutcome SessionState) : Outcome SessionState :=
  load_json_file o { started := .absent }

/-- One candidate file in `planning/` as the scanner sees it: its name and
the outcome of `read_text()` (`none` models an `IOError`, caught). -/
structure PlanFile where
  name : String
  content : Option String
deriving DecidableEq, Repr

/-- `scan_pending_work` (lines 250-266). `planning = none` models a missing
`planning/` directory. The glob `PROJECT_PLAN_*.md` is modelled as a
prefix/suffix test on the name; a readable file counts as pending when its
upper-cased content contains `IN_PROGRESS` or its lower-cased content
contains `status: in_progress`. -/
def scan_pending_work (planning : Option (List PlanFile)) : List String :=
  match planning with
  | none => []
  | some files =>
    (files.filter (fun f =>
      strStarts f.name "PROJECT_PLAN_" && strEnds f.name ".md" &&
      match f.content with
      | none => false
      | some c =>
        containsSub (strUpper c) "IN_PROGRESS" ||
        containsSub (strLower c) "status: in_progress")).map (fun f => f.name)

/-- Outcome of the `git status --porcelain` subprocess (lines 269-281):
* `unavailable` — `TimeoutExpired` or `FileNotFoundError` (both caught);
* `ran rc out` — the command completed with exit status `rc` and captured
  stdout `out`. -/
inductive VcsOutcome where
  | unavailable
  | ran (returncode : Int) (stdout : String)
deriving DecidableEq, Repr

/-- `get_uncommitted_changes` (lines 269-281). -/
def get_uncommitted_changes : VcsOutcome → List String
  | .unavailable => []
  | .ran rc out =>
    if rc = 0 ∧ pyStrip out ≠ "" then pySplitOn (pyStrip out) '\n' else []

/-- The part of `.aget/version.json` the program reads. -/
structure VersionData where
  aget_version : Option String
  agent_name : Option String
deriving DecidableEq, Repr

/-- Filesystem outcomes `create_session_file` depends on:
* `sessionsDirOk` — `sessions/` exists or `mkdir` succeeded (line 288-292);
* `stamp` — `now.strftime` rendering `%Y-%m-%d_%H%M` used in the session id;
* `writeOk` — `session_file.write_text` succeeded (line 332-336). -/
structure WriterEnv where
  sessionsDirOk : Bool
  stamp : String
  writeOk : Bool
deriving DecidableEq, Repr

/-- `create_session_file` (lines 284-336). Returns the artifact path
relative to the workspace on success, `none` on a caught I/O failure, and
raises when the `version.json` load at line 295 raises. The rendered
markdown body is pure string formatting and is not modelled; the
`mandatory` flag only feeds a local variable the body never uses. -/
def create_session_file (w : WriterEnv) (versionOutcome : LoadOutcome VersionData)
    (agentDirName : String) (_mandatory : Bool) : Outcome (Option String) :=
  if !w.sessionsDirOk then .ok none
  else
    match load_json_file versionOutcome { aget_version := none, agent_name := none } with
    | .raised => .raised
    | .ok versionData =>
      let _agent_name := versionData.agent_name.getD agentDirName
      let session_id := "session_" ++ w.stamp
      if w.writeOk then .ok (some ("sessions/" ++ session_id ++ ".md"))
      else .ok none

/-- The ResultRecord assembled by `get_wind_down_data` (lines 346-361):
the `session` sub-dict is flattened into `started`/`ended`/
`duration_seconds`. -/
structure WindDownData where
  timestamp : String
  agent_path : String
  started : Option String
  ended : String
  duration_seconds : Option Int
  sanity_check : SanityReport
  pending_work : List String
  uncommitted_changes : List String
  handoff_notes : String
  session_file : Option String
  mandatory_handoff : Bool
  clean_close : Bool
  agent_name : String
deriving DecidableEq, Repr

/-- Environment of one `get_wind_down_data` pass: outcomes of every
external probe it performs. `isoParse` is the result of
`datetime.fromisoformat` applied to the stored `started` string
(`none` models a `ValueError`, caught at line 371); timestamps are
modelled as integer epoch seconds, so the `int(...)` truncation at
line 370 is exact. -/
structure WDEnv where
  nowIso : String
  now : Int
  agentPathStr : String
  agentDirName : String
  sessionOutcome : LoadOutcome SessionState
  isoParse : Option Int
  sanity : SanityEnv
  planning : Option (List PlanFile)
  vcs : VcsOutcome
  writer : WriterEnv
  versionOutcome : LoadOutcome VersionData
deriving DecidableEq, Repr

/-- `get_wind_down_data` (lines 339-412), paired with the trace of
`create_session_file` invocations (each entry is the `mandatory` flag it
was called with). The record fields are assembled exactly as the source
mutates `data`:
* `started`/`duration_seconds` — lines 363-372; a truthy non-string
  `started` makes `datetime.fromisoformat` raise `TypeError`, which the
  `except ValueError` at line 371 does NOT catch, so the pass raises;
* `sanity_check` — lines 374-387;
* `pending_work` — line 390; `uncommitted_changes` — line 393;
* `mandatory_handoff`/`session_file` — lines 395-400;
* `clean_close` — lines 402-405;
* `agent_name` — lines 407-410 (raises when `version.json` is
  undecodable). -/
def get_wind_down_data (env : WDEnv) (skip_sanity : Bool)
    (handoff_notes : String) : Outcome WindDownData × List Bool :=
  match get_session_state env.sessionOutcome with
  | .raised => (.raised, [])
  | .ok sessionState =>
    let durationRes : Outcome (Option Int) :=
      match sessionState.started with
      | .str s =>
        if s = "" then .ok none
        else
          match env.isoParse with
          | some ts => .ok (some (env.now - ts))
          | none => .ok none
      | .nonStr true => .raised
      | _ => .ok none
    match durationRes with
    | .raised => (.raised, [])
    | .ok duration =>
      let startedVal : Option String :=
        match sessionState.started with
        | .str s => if s = "" then none else some s
        | _ => none
      let sanity : SanityReport :=
        if skip_sanity then skippedReport else run_sanity_check env.sanity
      let pending : List String := scan_pending_work env.planning
      let uncommitted : List String := get_uncommitted_changes env.vcs
      let writerCalls : List Bool := if pending.isEmpty then [] else [true]
      let sessionFileRes : Outcome (Option String) :=
        if pending.isEmpty then .ok none
        else create_session_file env.writer env.versionOutcome
               env.agentDirName true
      match sessionFileRes with
      | .raised => (.raised, writerCalls)
      | .ok sessionFile =>
        match load_json_file env.versionOutcome
            { aget_version := none, agent_name := none } with
        | .raised => (.raised, writerCalls)
        | .ok versionData =>
          (.ok { timestamp := env.nowIso
                 agent_path := env.agentPathStr
                 started := startedVal
                 ended := env.nowIso
                 duration_seconds := duration
                 sanity_check := sanity
                 pending_work := pending
                 uncommitted_changes := uncommitted
                 handoff_notes := handoff_notes
                 session_file := sessionFile
                 mandatory_handoff := !pending.isEmpty
                 clean_close := !(sanity.status == "error")
                 agent_name := versionData.agent_name.getD env.agentDirName },
           writerCalls)

/-- Behaviour of the optional `scripts/wind_down_ext.py` extension as the
invoker observes it (lines 415-443):
* `absent` — the file does not exist;
* `raises` — loading, executing, or calling the module raised (caught at
  line 440);
* `noEntryPoint` — the module loads but exposes no `post_wind_down`;
* `returnsNonDict` — `post_wind_down` returned a non-dict value;
* `returnsDict d` — `post_wind_down` returned the dict `d`. -/
inductive ExtBehavior where
  | absent
  | raises
  | noEntryPoint
  | returnsNonDict
  | returnsDict (d : WindDownData)
deriving DecidableEq, Repr

/-- `call_extension_hook` (lines 415-443). The second component records
whether anything was printed to stderr about a hook failure: a raising
extension always prints the warning at line 441; a non-dict return only
logs the diagnostic at line 439 when `verbose` is set. -/
def call_extension_hook (ext : ExtBehavior) (data : WindDownData)
    (verbose : Bool) : WindDownData × Bool :=
  match ext with
  | .absent => (data, false)
  | .raises => (data, true)
  | .noEntryPoint => (data, false)
  | .returnsNonDict => (data, verbose)
  | .returnsDict d => (d, false)

/-- The command-line options of one invocation (lines 555-592), restricted
to the ones that influence control flow or data. -/
structure Args where
  json : Bool
  pretty : Bool
  notes : String
  skip_sanity : Bool
  force : Bool
  verbose : Bool
  verify : Bool
deriving DecidableEq, Repr

/-- Outcome of the `--verify` self-check (lines 595-607). -/
inductive VerifyOutcome where
  | canonical
  | notCanonical
  | noRoot
deriving DecidableEq, Repr

/-- Environment of one `main` invocation:
* `verifyOutcome` — path comparison in the `--verify` branch;
* `rootFound` — whether `find_agent_root` located a workspace;
* `lockOk` — the result `acquire_lock` would return (line 628);
* `wd` — outcomes of every probe `get_wind_down_data` performs;
* `ext` — observable behaviour of the extension hook. -/
structure MainEnv where
  verifyOutcome : VerifyOutcome
  rootFound : Bool
  lockOk : Bool
  wd : WDEnv
  ext : ExtBehavior
deriving DecidableEq, Repr

/-- What one `main` invocation executed, beyond its exit code:
* `collectorsRan` — control reached `get_wind_down_data` (line 641);
* `writerCalls` — the `mandatory` flag of each `create_session_file` call;
* `lockAcquireCalled` / `lockReleaseCalled` — whether `acquire_lock`
  (line 628) / `release_lock` (line 678) executed; only these two
  functions ever create, write, or delete the lock file;
* `finalData` — the post-extension-hook record the Reporter printed
  (`none` when the run stopped or raised before reporting). -/
structure MainTrace where
  collectorsRan : Bool
  writerCalls : List Bool
  lockAcquireCalled : Bool
  lockReleaseCalled : Bool
  finalData : Option WindDownData
deriving DecidableEq, Repr

/-- Trace of a run that stopped before the guard. -/
def emptyTrace : MainTrace :=
  { collectorsRan := false, writerCalls := [], lockAcquireCalled := false
    lockReleaseCalled := false, finalData := none }

/-- `main` (lines 536-678), returning the process exit code (`raised`
models an uncaught exception escaping `main`, which makes the interpreter
print a traceback instead of exiting via the returned code) together with
the execution trace. Branches in source order:
* the `--verify` short-circuit (lines 595-607);
* workspace not found → 3 (lines 613-624);
* guard not bypassed and `acquire_lock` failed → 4, before any collector
  (lines 626-634; this return precedes the `try`, so `release_lock` does
  not run);
* otherwise gather data, call the extension hook, and map the final
  record's sanity status to 0/1/2 (lines 636-673); the `finally` releases
  the lock exactly when the guard was not bypassed (lines 675-678). -/
def mainRun (args : Args) (env : MainEnv) : Outcome Nat × MainTrace :=
  if args.verify then
    match env.verifyOutcome with
    | .canonical => (.ok 0, emptyTrace)
    | .notCanonical => (.ok 1, emptyTrace)
    | .noRoot => (.ok 1, emptyTrace)
  else if !env.rootFound then (.ok 3, emptyTrace)
  else if !args.force && !env.lockOk then
    (.ok 4, { emptyTrace with lockAcquireCalled := true })
  else
    let gathered := get_wind_down_data env.wd args.skip_sanity args.notes
    match gathered.1 with
    | .raised =>
      (.raised,
       { collectorsRan := true, writerCalls := gathered.2
         lockAcquireCalled := !args.force, lockReleaseCalled := !args.force
         finalData := none })
    | .ok data =>
      let hooked := call_extension_hook env.ext data args.verbose
      (.ok (if hooked.1.sanity_check.status = "error" then 2
            else if hooked.1.sanity_check.status = "warning" then 1
            else 0),
       { collectorsRan := true, writerCalls := gathered.2
         lockAcquireCalled := !args.force, lockReleaseCalled := !args.force
         finalData := some hooked.1 })

/-! ### Sample environments and records used to witness the theorems -/

/-- A quiet workspace: no session state, no sanity script, no planning
directory, no version store, VCS absent. -/
def sampleWD : WDEnv :=
  { nowIso := "2026-01-01T00:00:00"
    now := 1000
    agentPathStr := "/agent"
    agentDirName := "agent"
    sessionOutcome := .missing
    isoParse := none
    sanity := .noScript
    planning := none
    vcs := .unavailable
    writer := { sessionsDirOk := true, stamp := "2026-01-01_0000", writeOk := true }
    versionOutcome := .missing }

/-- Like `sampleWD` but with one in-progress plan document. -/
def pendingWD : WDEnv :=
  { sampleWD with
    planning := some
      [{ name := "PROJECT_PLAN_x.md", content := some "status: IN_PROGRESS" }] }

/-- Like `sampleWD` but the sanity subprocess raised. -/
def errorWD : WDEnv :=
  { sampleWD with sanity := .execFailure "boom" }

/-- Like `sampleWD` but `session_state.json` stores a truthy non-string
under `current_session.started` (e.g. the JSON number `123`). -/
def badStartedWD : WDEnv :=
  { sampleWD with sessionOutcome := .ok { started := .nonStr true } }

/-- The record `get_wind_down_data pendingWD false "n"` produces. -/
def pendingRecord : WindDownData :=
  { timestamp := "2026-01-01T00:00:00"
    agent_path := "/agent"
    started := none
    ended := "2026-01-01T00:00:00"
    duration_seconds := none
    sanity_check :=
      { status := "unknown", checks_passed := 0, checks_total := 0
        warnings := 0, errors := 0, message := "No sanity check script found" }
    pending_work := ["PROJECT_PLAN_x.md"]
    uncommitted_changes := []
    handoff_notes := "n"
    session_file := some "sessions/session_2026-01-01_0000.md"
    mandatory_handoff := true
    clean_close := true
    agent_name := "agent" }

/-- The record `get_wind_down_data errorWD false ""` produces. -/
def errorRecord : WindDownData :=
  { timestamp := "2026-01-01T00:00:00"
    agent_path := "/agent"
    started := none
    ended := "2026-01-01T00:00:00"
    duration_seconds := none
    sanity_check :=
      { status := "error", checks_passed := 0, checks_total := 0
        warnings := 0, errors := 1
        message := "Sanity check failed to execute: boom" }
    pending_work := []
    uncommitted_changes := []
    handoff_notes := ""
    session_file := none
    mandatory_handoff := false
    clean_close := false
    agent_name := "agent" }

/-- Default CLI invocation: no flags, no notes. -/
def argsPlain : Args :=
  { json := false, pretty := false, notes := "", skip_sanity := false
    force := false, verbose := false, verify := false }

/-- Invocation with the guard bypassed (`--force`). -/
def argsForce : Args :=
  { argsPlain with force := true }

/-- A healthy `main` environment over the quiet workspace. -/
def envOK : MainEnv :=
  { verifyOutcome := .canonical, rootFound := true, lockOk := true
    wd := sampleWD, ext := .absent }

/-- `main` environment where no workspace marker directory is found. -/
def envNoRoot : MainEnv :=
  { envOK with rootFound := false }

/-- `main` environment where another wind-down holds the lock. -/
def envBlocked : MainEnv :=
  { envOK with lockOk := false }

/-- `main` environment over the workspace with the non-string timestamp. -/
def badStartedEnv : MainEnv :=
  { envOK with wd := badStartedWD }

/-- Like `sampleWD` but `session_state.json` holds bytes that are not
valid UTF-8. -/
def undecodableWD : WDEnv :=
  { sampleWD with sessionOutcome := .undecodable }

/-- The record `get_wind_down_data sampleWD false ""` produces. -/
def plainRecord : WindDownData :=
  { timestamp := "2026-01-01T00:00:00"
    agent_path := "/agent"
    started := none
    ended := "2026-01-01T00:00:00"
    duration_seconds := none
    sanity_check :=
      { status := "unknown", checks_passed := 0, checks_total := 0
        warnings := 0, errors := 0, message := "No sanity check script found" }
    pending_work := []
    uncommitted_changes := []
    handoff_notes := ""
    session_file := none
    mandatory_handoff := false
    clean_close := true
    agent_name := "agent" }

/-- Trace of a run blocked by the re-entrancy guard. -/
def blockedTrace : MainTrace :=
  { emptyTrace with lockAcquireCalled := true }

/-- Trace of the full `mainRun argsPlain envOK` pass. -/
def okTrace : MainTrace :=
  { collectorsRan := true, writerCalls := [], lockAcquireCalled := true
    lockReleaseCalled := true, finalData := some plainRecord }

/-- A structured sanity-tool output reporting more passed checks than
total checks. -/
def badSummary : StructuredSummary :=
  { status := some "healthy", passed := some 5, total := some 2
    warnings := some 0, errors := some 0 }

/-- The invariant the specification states for SanityReport counters. -/
def reportInv (r : SanityReport) : Prop :=
  0 ≤ r.checks_passed ∧ r.checks_passed ≤ r.checks_total ∧
  0 ≤ r.warnings ∧ 0 ≤ r.errors

/-! ### Helper lemmas -/

/-- Field-level description of every successful `get_wind_down_data` pass:
how each decision field of the returned record is derived from the
collector outcomes. -/
theorem wind_down_ok_fields (env : WDEnv) (ss : Bool) (notes : String)
    (d : WindDownData) (wc : List Bool)
    (h : get_wind_down_data env ss notes = (.ok d, wc)) :
    d.pending_work = scan_pending_work env.planning ∧
    d.mandatory_handoff = !(scan_pending_work env.planning).isEmpty ∧
    d.sanity_check = (if ss then skippedReport else run_sanity_check env.sanity) ∧
    d.clean_close = !(d.sanity_check.status == "error") ∧
    ((scan_pending_work env.planning).isEmpty = true → d.session_file = none) ∧
    (env.isoParse = none → d.duration_seconds = none) := by
  unfold get_wind_down_data at h
  repeat' split at h
  all_goals try simp only [Prod.mk.injEq, reduceCtorEq, false_and, Outcome.ok.injEq] at h
  all_goals try simp_all
  all_goals (
    by_cases hsc : scan_pending_work env.planning = [] <;>
      simp only [hsc, ite_true, ite_false] at h <;>
      (try (cases hcs : create_session_file env.writer env.versionOutcome env.agentDirName true <;>
            rw [hcs] at h)) <;>
      simp_all)
  all_goals (obtain ⟨hd, hwc⟩ := h; subst hd; simp_all)

/-- The writer-call trace of a pass is empty or the single mandatory call. -/
theorem wind_down_writer_calls (env : WDEnv) (ss : Bool) (notes : String) :
    (get_wind_down_data env ss notes).2 = [] ∨
    (get_wind_down_data env ss notes).2 = [true] := by
  unfold get_wind_down_data
  repeat' split
  all_goals try simp
  all_goals (
    by_cases hsc : scan_pending_work env.planning = [] <;>
      simp only [hsc, ite_true, ite_false] <;>
      try simp)
  all_goals (cases create_session_file env.writer env.versionOutcome env.agentDirName true <;> simp)

/-! ### Claims -/

/-- C1: for every orchestration pass (every combination of session-state,
sanity-check and VCS collector outputs), the ResultRecord produced by the
data-gathering pipeline has `mandatory_handoff = true` if and only if the
pending-work sequence is non-empty. -/
theorem mandatory_handoff_iff_pending_work (env : WDEnv) (ss : Bool)
    (notes : String) (d : WindDownData) (wc : List Bool)
    (h : get_wind_down_data env ss notes = (.ok d, wc)) :
    d.mandatory_handoff = true ↔ d.pending_work ≠ [] := by
  obtain ⟨hp, hm, -, -, -, -⟩ := wind_down_ok_fields env ss notes d wc h
  rw [hp, hm]
  cases hl : scan_pending_work env.planning <;> simp [hl]

/-- Witness for C1 at a concrete pass with one in-progress plan file. -/
theorem mandatory_handoff_iff_pending_work_witness :
    pendingRecord.mandatory_handoff = true :=
  (mandatory_handoff_iff_pending_work pendingWD false "n" pendingRecord [true]
    (by decide)).mpr (by decide)

/-- C2: for every orchestration pass, the ResultRecord has
`clean_close = false` if and only if its SanityReport status equals
"error", independent of the pending-work and VCS collector outputs. -/
theorem clean_close_iff_sanity_error (env : WDEnv) (ss : Bool)
    (notes : String) (d : WindDownData) (wc : List Bool)
    (h : get_wind_down_data env ss notes = (.ok d, wc)) :
    d.clean_close = false ↔ d.sanity_check.status = "error" := by
  obtain ⟨-, -, -, hc, -, -⟩ := wind_down_ok_fields env ss notes d wc h
  rw [hc]
  cases hs : d.sanity_check.status == "error" <;> simp_all

/-- Witness for C2 at a concrete pass whose sanity subprocess raised. -/
theorem clean_close_iff_sanity_error_witness :
    errorRecord.clean_close = false :=
  (clean_close_iff_sanity_error errorWD false "" errorRecord []
    (by decide)).mpr (by decide)

/-- C5 counterexample: with verbose diagnostics off, an extension that
returns a non-mapping value leaves the record unchanged but emits NO
warning — the diagnostic at line 439 is gated on `verbose`, so the claim
that a warning is always emitted fails at this concrete input. -/
theorem extension_nonmapping_silent_counterexample :
    call_extension_hook ExtBehavior.returnsNonDict plainRecord false =
      (plainRecord, false) := rfl

/-- C5 amended: a raising extension always keeps the original record and
emits a warning; a non-mapping return keeps the original record but emits
the diagnostic only when verbose is enabled; neither failure propagates. -/
theorem extension_failure_preserves_record (d : WindDownData)
    (verbose : Bool) :
    call_extension_hook ExtBehavior.raises d verbose = (d, true) ∧
    call_extension_hook ExtBehavior.returnsNonDict d verbose = (d, verbose) :=
  ⟨rfl, rfl⟩

/-- C7 counterexample: the structured-output path copies the external
tool's counters verbatim, so a summary reporting passed=5, total=2 yields
a SanityReport with `checks_total < checks_passed`, refuting the claimed
invariant on that path. -/
theorem sanity_counters_counterexample :
    (run_sanity_check (SanityEnv.ran "checks" (some badSummary))).checks_total <
    (run_sanity_check (SanityEnv.ran "checks" (some badSummary))).checks_passed := by
  decide

/-- C7 amended: every SanityReport produced by the no-script path, the
exec-failure path, the textual-fallback path (taken when structured parse
fails or captured output is empty) or the skip path has non-negative
counters with `checks_total ≥ checks_passed`; only the structured-output
path can violate the invariant. -/
theorem sanity_counters_nonstructured (msg out : String)
    (p : Option StructuredSummary) :
    reportInv (run_sanity_check SanityEnv.noScript) ∧
    reportInv (run_sanity_check (SanityEnv.execFailure msg)) ∧
    reportInv (run_sanity_check (SanityEnv.ran out none)) ∧
    reportInv (run_sanity_check (SanityEnv.ran "" p)) ∧
    reportInv skippedReport := by
  refine ⟨?_, ?_, ?_, ?_, ?_⟩ <;>
    simp [run_sanity_check, reportInv, skippedReport, textFallbackReport,
      ite_self] <;>
    omega

/-- C8: on the textual-fallback path, captured output with zero failure
markers and N success markers yields status "healthy" with
`checks_passed = N`; at least one failure marker yields status "warning". -/
theorem textual_fallback_spec (out : String) :
    (strCount out "[-]" + strCount out "FAIL" = 0 →
      (run_sanity_check (SanityEnv.ran out none)).status = "healthy" ∧
      (run_sanity_check (SanityEnv.ran out none)).checks_passed =
        ((strCount out "[+]" + strCount out "PASS" : Nat) : Int)) ∧
    (0 < strCount out "[-]" + strCount out "FAIL" →
      (run_sanity_check (SanityEnv.ran out none)).status = "warning") := by
  have hred : run_sanity_check (SanityEnv.ran out none) = textFallbackReport out := by
    simp [run_sanity_check, ite_self]
  rw [hred]
  constructor
  · intro h0
    simp [textFallbackReport, h0]
  · intro hpos
    have hne : ¬(strCount out "[-]" + strCount out "FAIL" = 0) := by omega
    simp [textFallbackReport, hne]

/-- Witness for C8 on concrete captured outputs. -/
theorem textual_fallback_spec_witness :
    (run_sanity_check (SanityEnv.ran "[+] setup PASS" none)).status = "healthy" ∧
    (run_sanity_check (SanityEnv.ran "check FAIL" none)).status = "warning" :=
  ⟨((textual_fallback_spec "[+] setup PASS").1 (by decide)).1,
   (textual_fallback_spec "check FAIL").2 (by decide)⟩

/-- C3: a run that reaches the Reporter exits with the code derived from
the final record's SanityReport status ("error" → 2, "warning" → 1, any
other status → 0); a run whose workspace is not found exits 3 and a run
blocked by the guard exits 4, both before any collector executes. -/
theorem exit_code_rules (args : Args) (env : MainEnv)
    (hv : args.verify = false) :
    (env.rootFound = false → mainRun args env = (.ok 3, emptyTrace)) ∧
    (env.rootFound = true → args.force = false → env.lockOk = false →
      mainRun args env = (.ok 4, blockedTrace)) ∧
    (∀ code trace d, mainRun args env = (.ok code, trace) →
      trace.finalData = some d →
      code = if d.sanity_check.status = "error" then 2
             else if d.sanity_check.status = "warning" then 1 else 0) := by
  refine ⟨?_, ?_, ?_⟩
  · intro hr
    simp [mainRun, hv, hr]
  · intro hr hf hl
    simp [mainRun, hv, hr, hf, hl, blockedTrace]
  · intro code trace d hrun hfd
    unfold mainRun at hrun
    rw [hv] at hrun
    repeat' split at hrun
    all_goals first
      | contradiction
      | (rcases hG : get_wind_down_data env.wd args.skip_sanity args.notes with ⟨gres, gcalls⟩
         rw [hG] at hrun
         cases gres <;>
           simp only [Prod.mk.injEq, reduceCtorEq, false_and, and_false,
             Outcome.ok.injEq] at hrun <;>
           (obtain ⟨hc, ht⟩ := hrun
            subst hc
            subst ht
            simp_all [emptyTrace]))
      | (simp only [Prod.mk.injEq, Outcome.ok.injEq] at hrun
         obtain ⟨hc, ht⟩ := hrun
         subst hc
         subst ht
         simp_all [emptyTrace])

/-- Witness for C3: the three exit paths at concrete invocations. -/
theorem exit_code_rules_witness :
    mainRun argsPlain envNoRoot = (Outcome.ok 3, emptyTrace) ∧
    mainRun argsPlain envBlocked = (Outcome.ok 4, blockedTrace) ∧
    (0 : Nat) = (if plainRecord.sanity_check.status = "error" then 2
                 else if plainRecord.sanity_check.status = "warning" then 1
                 else 0) :=
  ⟨(exit_code_rules argsPlain envNoRoot rfl).1 rfl,
   (exit_code_rules argsPlain envBlocked rfl).2.1 rfl rfl rfl,
   (exit_code_rules argsPlain envOK rfl).2.2 0 okTrace plainRecord
     (by decide) (by decide)⟩

/-- C4: when lock acquisition fails and bypass is not requested, the run
is a hard stop: exit code 4, no collector runs, no writer call is made,
and nothing reaches the Reporter. -/
theorem guard_blocked_hard_stop (args : Args) (env : MainEnv)
    (hv : args.verify = false) (hf : args.force = false)
    (hr : env.rootFound = true) (hl : env.lockOk = false) :
    mainRun args env = (.ok 4, blockedTrace) ∧
    (mainRun args env).2.collectorsRan = false ∧
    (mainRun args env).2.writerCalls = [] ∧
    (mainRun args env).2.finalData = none := by
  refine ⟨?_, ?_, ?_, ?_⟩ <;>
    simp [mainRun, hv, hf, hr, hl, blockedTrace, emptyTrace]

/-- Witness for C4 at a concrete blocked invocation. -/
theorem guard_blocked_hard_stop_witness :
    mainRun argsPlain envBlocked = (Outcome.ok 4, blockedTrace) :=
  (guard_blocked_hard_stop argsPlain envBlocked rfl rfl rfl rfl).1

/-- C9: when bypass is requested the guard's acquire and release paths
never execute (the lock file is never created, written to, or deleted),
the result does not depend on the lock state, and (outside verify mode,
with a workspace found) the run proceeds into the collectors. -/
theorem bypass_skips_guard (args : Args) (env : MainEnv)
    (hf : args.force = true) :
    (mainRun args env).2.lockAcquireCalled = false ∧
    (mainRun args env).2.lockReleaseCalled = false ∧
    (∀ b, mainRun args { env with lockOk := b } = mainRun args env) ∧
    (args.verify = false → env.rootFound = true →
      (mainRun args env).2.collectorsRan = true) := by
  have hnf : (!args.force) = false := by rw [hf]; rfl
  refine ⟨?_, ?_, ?_, ?_⟩
  · unfold mainRun
    repeat' split <;> simp_all [emptyTrace]
  · unfold mainRun
    repeat' split <;> simp_all [emptyTrace]
  · intro b
    simp [mainRun, hnf]
  · intro hv hr
    unfold mainRun
    rw [hv, hr]
    simp only [hnf]
    cases hg : (get_wind_down_data env.wd args.skip_sanity args.notes).1 <;>
      simp [hg]

/-- Witness for C9 at a concrete bypassed invocation over a held lock. -/
theorem bypass_skips_guard_witness :
    (mainRun argsForce envBlocked).2.lockAcquireCalled = false ∧
    mainRun argsForce { envBlocked with lockOk := true } =
      mainRun argsForce envBlocked :=
  ⟨(bypass_skips_guard argsForce envBlocked rfl).1,
   (bypass_skips_guard argsForce envBlocked rfl).2.2.1 true⟩

/-- C6 (code bug): evaluating the pipeline at the failing inputs. A
`session_state.json` holding a truthy non-string under
`current_session.started` (e.g. the JSON number 123) makes
`datetime.fromisoformat` raise `TypeError`, which the `except ValueError`
at line 371 does not catch; a `session_state.json` that is not valid
UTF-8 makes `json.load` raise `UnicodeDecodeError`, which the handler at
line 171 does not catch. Both crash the pass instead of returning the
default record with an unknown duration. -/
theorem session_reader_uncaught_exceptions :
    (get_wind_down_data badStartedWD false "").1 = Outcome.raised ∧
    (get_wind_down_data undecodableWD false "").1 = Outcome.raised ∧
    (mainRun argsPlain badStartedEnv).1 = Outcome.raised :=
  ⟨by decide, by decide, by decide⟩

/-- C10 (implicit): `session_file` is non-null only when
`mandatory_handoff` is true; the Handoff Writer is invoked at most once
per pass and only with `mandatory = true` — no invocation ever performs a
voluntary write. -/
theorem session_file_only_when_mandatory (env : WDEnv) (ss : Bool)
    (notes : String) (d : WindDownData) (wc : List Bool) (args : Args)
    (menv : MainEnv) (h : get_wind_down_data env ss notes = (.ok d, wc)) :
    (d.session_file ≠ none → d.mandatory_handoff = true) ∧
    (wc = [] ∨ wc = [true]) ∧
    ((mainRun args menv).2.writerCalls = [] ∨
     (mainRun args menv).2.writerCalls = [true]) := by
  obtain ⟨hp, hm, -, -, hsf, -⟩ := wind_down_ok_fields env ss notes d wc h
  refine ⟨?_, ?_, ?_⟩
  · intro hne
    rw [hm]
    by_cases he : (scan_pending_work env.planning).isEmpty = true
    · exact absurd (hsf he) hne
    · simp [Bool.not_eq_true] at he
      simp [he]
  · have hwc := wind_down_writer_calls env ss notes
    rw [h] at hwc
    simpa using hwc
  · rcases wind_down_writer_calls menv.wd args.skip_sanity args.notes with hw | hw <;>
      unfold mainRun <;>
      repeat' split <;>
      simp_all [emptyTrace, blockedTrace]

/-- Witness for C10 at a concrete pass with one in-progress plan file. -/
theorem session_file_only_when_mandatory_witness :
    pendingRecord.mandatory_handoff = true ∧
    (mainRun argsPlain envOK).2.writerCalls = [] :=
  ⟨(session_file_only_when_mandatory pendingWD false "n" pendingRecord [true]
      argsPlain envOK (by decide)).1 (by decide),
   (session_file_only_when_mandatory pendingWD false "n" pendingRecord [true]
      argsPlain envOK (by decide)).2.2.resolve_right (by decide)⟩

end WindDown
